import Mathlib

/-!
Shallow embedding of the iland-model reinforcement-learning environments
(`forest_env.py`, the continuous-action variant, and `iland_atari_env.py`,
the discrete grid-walker variant), together with proofs about action
decoding, planting validation, reward computation, observation encoding
and carbon accounting.

Python floats are modelled as rationals (`ℚ`) except for Euclidean
distances, which involve square roots and are modelled as extended
nonnegative reals (`ℝ≥0∞`, with `⊤` playing the role of `float("inf")`).
External effects (the seedling-file write, the simulator subprocess and
the output database) are modelled by an explicit `World` record supplied
to `step`; a Python exception escaping `step` is modelled by
`Except.error`.
-/

open scoped ENNReal

namespace ILand

/-- Python `int(q)` applied to a float: truncation toward zero. -/
def pyInt (q : ℚ) : ℤ := if 0 ≤ q then ⌊q⌋ else ⌈q⌉

/-- A planted seedling as stored in `ForestEnv.seedlings_planted`
(`forest_env.py`): continuous coordinates plus a species index. -/
structure Seedling where
  x : ℚ
  y : ℚ
  species_idx : ℕ
  deriving DecidableEq, Repr

/-- All ordered pairs `(s[i], s[j])` with `i < j`, mirroring the double
loop of `ForestEnv.get_smallest_seedling_distance`. -/
def seedPairs : List Seedling → List (Seedling × Seedling)
  | [] => []
  | a :: rest => rest.map (fun b => (a, b)) ++ seedPairs rest

/-- Squared Euclidean distance between the positions of two seedlings. -/
def seedDistSq (a b : Seedling) : ℚ := (a.x - b.x) ^ 2 + (a.y - b.y) ^ 2

/-- Euclidean distance between two seedlings, as computed by
`np.linalg.norm` on the coordinate difference. -/
noncomputable def seedDist (a b : Seedling) : ℝ≥0∞ :=
  ENNReal.ofReal (Real.sqrt ((seedDistSq a b : ℚ) : ℝ))

/-- `ForestEnv.get_smallest_seedling_distance` (`forest_env.py` lines
303-317): `float("inf")` (here `⊤`) for fewer than two seedlings,
otherwise the minimum distance over all unordered pairs. -/
noncomputable def get_smallest_seedling_distance (s : List Seedling) : ℝ≥0∞ :=
  if s.length < 2 then ⊤
  else ((seedPairs s).map (fun p => seedDist p.1 p.2)).foldr min ⊤

lemma lt_foldr_min {a : ℝ≥0∞} (ha : a ≠ ⊤) (l : List ℝ≥0∞) :
    a < l.foldr min ⊤ ↔ ∀ b ∈ l, a < b := by
  induction l with
  | nil => simpa using lt_top_iff_ne_top.mpr ha
  | cons x xs ih => simp [lt_min_iff, ih]

lemma threshold_lt_seedDist_iff (a b : Seedling) :
    ENNReal.ofReal 0.5 < seedDist a b ↔ (1 / 4 : ℚ) < seedDistSq a b := by
  have h0 : (0 : ℝ) ≤ 0.5 := by norm_num
  rw [seedDist, ENNReal.ofReal_lt_ofReal_iff_of_nonneg h0, Real.lt_sqrt h0,
    show ((0.5 : ℝ)) ^ 2 = ((1 / 4 : ℚ) : ℝ) by norm_num, Rat.cast_lt]

/-- The spacing test `get_smallest_seedling_distance() > 0.5` holds iff
there are fewer than two seedlings or every pair is more than `1/2`
apart, i.e. every squared pairwise distance exceeds `1/4`. -/
lemma gssd_gt_iff (s : List Seedling) :
    ENNReal.ofReal 0.5 < get_smallest_seedling_distance s ↔
      (s.length < 2 ∨ ∀ p ∈ seedPairs s, (1 / 4 : ℚ) < seedDistSq p.1 p.2) := by
  unfold get_smallest_seedling_distance
  by_cases h : s.length < 2
  · simp [h]
  · rw [if_neg h, lt_foldr_min ENNReal.ofReal_ne_top, or_iff_right h]
    constructor
    · intro hall p hmem
      exact (threshold_lt_seedDist_iff p.1 p.2).mp (hall _ (List.mem_map_of_mem _ hmem))
    · intro hall b hb
      rcases List.mem_map.mp hb with ⟨p, hp, rfl⟩
      exact (threshold_lt_seedDist_iff p.1 p.2).mpr (hall p hp)

instance spacingDecidable (s : List Seedling) :
    Decidable (ENNReal.ofReal 0.5 < get_smallest_seedling_distance s) :=
  decidable_of_iff _ (gssd_gt_iff s).symm

/-- One row of the simulator's `tree` output table, restricted to the
columns that `get_total_carbon` reads. -/
structure TreeRow where
  year : ℤ
  stemMass : ℚ
  branchMass : ℚ
  coarseRootMass : ℚ
  fineRootMass : ℚ
  deriving DecidableEq, Repr

/-- `get_total_carbon` (`forest_env.py` lines 56-78): sum each of the
four mass columns over the rows of the requested year, add them, and
multiply by `0.5` (half of the biomass is carbon). -/
def get_total_carbon (data : List TreeRow) (year : ℤ) : ℚ :=
  let total_branch_mass := ((data.filter (fun r => r.year == year)).map (fun r => r.branchMass)).sum
  let total_stem_mass := ((data.filter (fun r => r.year == year)).map (fun r => r.stemMass)).sum
  let total_coarse_root_mass := ((data.filter (fun r => r.year == year)).map (fun r => r.coarseRootMass)).sum
  let total_fine_root_mass := ((data.filter (fun r => r.year == year)).map (fun r => r.fineRootMass)).sum
  (total_branch_mass + total_stem_mass + total_coarse_root_mass + total_fine_root_mass) * 0.5

/-- Mutable state of the continuous `ForestEnv` (`forest_env.py`),
restricted to the fields that `step` reads or writes. The keepout mask
is a boolean grid, `true` meaning plantable, indexed row-first
(`keepout[grid_y, grid_x]` in the source). -/
structure EnvState where
  grid_size : ℕ
  total_seedlings : ℕ
  species_count : ℕ
  keepout : ℕ → ℕ → Bool
  seedlings_planted : List Seedling
  previous_carbon : ℚ
  num_failed_plantings : ℕ

/-- External effects available to one `step` call: whether writing the
seedling initialization file succeeds (its unguarded `OSError` escapes
`step` otherwise), whether the simulator subprocess reports success, and
the rows of the output `tree` table (`none` when the table cannot be
read). -/
structure World where
  file_write_ok : Bool
  sim_success : Bool
  sim_output : Option (List TreeRow)

/-- A Python exception escaping a `step` call. -/
inductive PyError where
  | osError
  | unboundLocalError
  deriving DecidableEq, Repr

/-- `x = ((action[0] + 1) / 2) * grid_size` in `ForestEnv.step`. -/
def x_cont (e : EnvState) (a : ℚ × ℚ × ℚ) : ℚ := ((a.1 + 1) / 2) * e.grid_size

/-- `y = ((action[1] + 1) / 2) * grid_size` in `ForestEnv.step`. -/
def y_cont (e : EnvState) (a : ℚ × ℚ × ℚ) : ℚ := ((a.2.1 + 1) / 2) * e.grid_size

/-- `species_idx = max(0, min(int(species_norm * (n - 1)), n - 1))` where
`species_norm = (action[2] + 1) / 2` and `n` is the species count; `int`
truncates toward zero. -/
def species_idx (e : EnvState) (a : ℚ × ℚ × ℚ) : ℕ :=
  (max 0 (min (pyInt (((a.2.2 + 1) / 2) * ((e.species_count : ℚ) - 1)))
    ((e.species_count : ℤ) - 1))).toNat

/-- `int(min(max(0, v), grid_size - 1))`, the clamped grid index used for
both the mask lookup in `step` and the cell write in `get_observation`.
(For `grid_size ≥ 1` the clamped value is nonnegative, so the final
`Int.toNat` is exact.) -/
def clampGrid (e : EnvState) (v : ℚ) : ℕ :=
  (pyInt (min (max 0 v) ((e.grid_size : ℚ) - 1))).toNat

/-- `grid_x` in `ForestEnv.step`. -/
def grid_x (e : EnvState) (a : ℚ × ℚ × ℚ) : ℕ := clampGrid e (x_cont e a)

/-- `grid_y` in `ForestEnv.step`. -/
def grid_y (e : EnvState) (a : ℚ × ℚ × ℚ) : ℕ := clampGrid e (y_cont e a)

/-- `valid_planting = self.keepout[grid_y, grid_x] and
self.get_smallest_seedling_distance() > 0.5` (`forest_env.py` lines
353-355). -/
def valid_planting (e : EnvState) (a : ℚ × ℚ × ℚ) : Bool :=
  e.keepout (grid_y e a) (grid_x e a) &&
    decide (ENNReal.ofReal 0.5 < get_smallest_seedling_distance e.seedlings_planted)

/-- `ForestEnv.get_observation` (`forest_env.py` lines 166-189): the base
grid is 0 on plantable cells and 1 on keepout cells; then each seedling,
in planting order, writes `species_idx + 2` at its clamped grid cell
(`obs[grid_y, grid_x]`). -/
def get_observation (e : EnvState) : ℕ → ℕ → ℕ :=
  e.seedlings_planted.foldl
    (fun obs sd => fun gy gx =>
      if gy = clampGrid e sd.y ∧ gx = clampGrid e sd.x then sd.species_idx + 2
      else obs gy gx)
    (fun gy gx => if e.keepout gy gx then 0 else 1)

/-- The `info` dictionary returned by `ForestEnv.step` (the `species`
name string is omitted; its index is kept). -/
structure StepInfo where
  planted_seedlings : ℕ
  valid_planting : Bool
  location : ℚ × ℚ
  species_idx : ℕ
  total_carbon : Option ℚ
  carbon_improvement : Option ℚ
  deriving DecidableEq, Repr

/-- The 5-tuple returned by a successful `ForestEnv.step` call. -/
structure StepOut where
  observation : ℕ → ℕ → ℕ
  reward : ℚ
  terminated : Bool
  truncated : Bool
  info : StepInfo

/-- `ForestEnv.read_output` carbon result: the final year is the maximum
`year` in the table; for an empty table pandas yields `NaN` (modelled by
`none`), which matches no row, so the carbon sum is 0. -/
def output_carbon (rows : List TreeRow) : ℚ :=
  match (rows.map (fun r => r.year)).max? with
  | none => 0
  | some final_year => get_total_carbon rows final_year

/-- `ForestEnv.step` (`forest_env.py` lines 319-420). The result pairs
what the call produces (or the exception that escapes it) with the
environment state after the call; the state is meaningful even on an
exception, since Python mutates `self` in place before the failure
point. -/
def step (e : EnvState) (a : ℚ × ℚ × ℚ) (w : World) :
    Except PyError StepOut × EnvState :=
  let x := x_cont e a
  let y := y_cont e a
  let sp := species_idx e a
  let info : StepInfo :=
    ⟨e.seedlings_planted.length, valid_planting e a, (x, y), sp, none, none⟩
  if valid_planting e a = false then
    (Except.ok ⟨get_observation e, -10, false,
        decide (10 < e.num_failed_plantings + 1), info⟩,
      { e with num_failed_plantings := e.num_failed_plantings + 1 })
  else
    let e1 := { e with seedlings_planted := e.seedlings_planted ++ [⟨x, y, sp⟩] }
    if w.file_write_ok = false then
      (Except.error PyError.osError, e1)
    else if w.sim_success = false then
      (Except.ok ⟨get_observation e1, -10, true, true, info⟩, e1)
    else
      match w.sim_output with
      | none => (Except.ok ⟨get_observation e1, -5, true, true, info⟩, e1)
      | some rows =>
        let current_carbon := output_carbon rows
        let carbon_improvement := current_carbon - e.previous_carbon
        let e2 := { e1 with previous_carbon := current_carbon }
        let info2 := { info with
          total_carbon := some current_carbon
          carbon_improvement := some carbon_improvement }
        (Except.ok ⟨get_observation e2, carbon_improvement,
            decide (e.total_seedlings ≤ e1.seedlings_planted.length), false, info2⟩, e2)

/-- `ForestEnv.reset`: clears the registry, carbon and failure counter
and installs a freshly generated keepout mask (the mask is random in the
source; it is a parameter here). -/
def reset (e : EnvState) (mask : ℕ → ℕ → Bool) : EnvState :=
  { e with
    seedlings_planted := []
    previous_carbon := 0
    num_failed_plantings := 0
    keepout := mask }

/-- Run a sequence of `step` calls, keeping only the evolving state. -/
def stepsFold (e : EnvState) (l : List ((ℚ × ℚ × ℚ) × World)) : EnvState :=
  l.foldl (fun s aw => (step s aw.1 aw.2).2) e

/-- The reward of a step outcome, when no exception escaped. -/
def rewardOf (r : Except PyError StepOut × EnvState) : Option ℚ :=
  match r.1 with
  | Except.ok o => some o.reward
  | Except.error _ => none

/-- The `terminated` flag of a step outcome, when no exception escaped. -/
def terminatedOf (r : Except PyError StepOut × EnvState) : Option Bool :=
  match r.1 with
  | Except.ok o => some o.terminated
  | Except.error _ => none

/-- The `truncated` flag of a step outcome, when no exception escaped. -/
def truncatedOf (r : Except PyError StepOut × EnvState) : Option Bool :=
  match r.1 with
  | Except.ok o => some o.truncated
  | Except.error _ => none

/-- The last seedling in planting order whose clamped grid cell is the
given cell. -/
def last_seedling_at (e : EnvState) (gy gx : ℕ) : Option Seedling :=
  e.seedlings_planted.reverse.find?
    (fun sd => decide (gy = clampGrid e sd.y ∧ gx = clampGrid e sd.x))

/-- The validity predicate as claim C1 states it, following the spec's
words: mask plantable at the target cell AND spacing rule AND target
cell not already occupied by a seedling. The occupancy conjunct does not
exist in the source; this definition exists only to be compared with
`valid_planting`. -/
def spec_valid_planting (e : EnvState) (a : ℚ × ℚ × ℚ) : Bool :=
  e.keepout (grid_y e a) (grid_x e a) &&
    decide (ENNReal.ofReal 0.5 < get_smallest_seedling_distance e.seedlings_planted) &&
    !(e.seedlings_planted.any (fun sd =>
      clampGrid e sd.y == grid_y e a && clampGrid e sd.x == grid_x e a))

/-- The species decoding as claim C4 states it, following the spec's
words: map the third action component to `[0, species_count - 1]`, round
to the NEAREST integer index, then clamp. This definition exists only to
be compared with `species_idx`, which truncates instead of rounding. -/
def spec_species_idx (e : EnvState) (a : ℚ × ℚ × ℚ) : ℕ :=
  (max 0 (min (round (((a.2.2 + 1) / 2) * ((e.species_count : ℚ) - 1)))
    ((e.species_count : ℤ) - 1))).toNat

/-- A seedling of the discrete grid-walker environment
(`iland_atari_env.py`): an integer grid cell plus the cluster index
chosen by the planting action. The concrete species short name is
sampled at random from the cluster's rows of `pca_species_clusters.csv`;
only the cluster is tracked here. -/
structure ASeedling where
  cluster : ℕ
  x : ℕ
  y : ℕ
  deriving DecidableEq, Repr

/-- Mutable state of the grid-walker `ForestEnv`. -/
structure AtariState where
  size : ℕ
  num_seedlings : ℕ
  seedlings : List ASeedling
  previous_carbon : ℚ
  agent_x : ℕ
  agent_y : ℕ
  deriving DecidableEq, Repr

/-- `np.clip(v, 0, size - 1)` applied to an integer coordinate. -/
def clipA (v : ℤ) (size : ℕ) : ℕ := (max 0 (min v ((size : ℤ) - 1))).toNat

/-- The four movement directions of `_action_to_direction`. -/
def a_dir (action : ℕ) : ℤ × ℤ :=
  if action = 0 then (1, 0)
  else if action = 1 then (0, 1)
  else if action = 2 then (-1, 0)
  else (0, -1)

/-- A cell of the grid-walker observation. In the source each seedling
cell holds an RGB color that is a deterministic function of the sampled
species short name and its cluster; only the cluster is tracked here, so
a cell records empty, agent, or the planted cluster. -/
inductive ACell where
  | empty
  | agent
  | seedling (cluster : ℕ)
  deriving DecidableEq, Repr

/-- `_get_obs` of the grid-walker environment: seedlings are drawn in
planting order (later overwrites earlier), then the agent is drawn last
as a white pixel. -/
def a_get_obs (s : AtariState) : ℕ → ℕ → ACell :=
  let base := s.seedlings.foldl
    (fun obs sd => fun gy gx =>
      if gy = sd.y ∧ gx = sd.x then ACell.seedling sd.cluster else obs gy gx)
    (fun _ _ => ACell.empty)
  fun gy gx => if gy = s.agent_y ∧ gx = s.agent_x then ACell.agent else base gy gx

/-- The 5-tuple returned by a successful grid-walker `step` call; the
`info` dictionary holds only `remaining_seedlings`. -/
structure AStepOut where
  observation : ℕ → ℕ → ACell
  reward : ℚ
  terminated : Bool
  truncated : Bool
  remaining_seedlings : ℤ

/-- `ForestEnv.step` of `iland_atari_env.py` (lines 290-358). On the
planting path the Python local `info` is assigned only on the movement
path and on the success path; the two returns after a simulation failure
or an unreadable output reference `info` before any assignment, so
`UnboundLocalError` escapes the call. -/
def a_step (s : AtariState) (action : ℕ) (w : World) :
    Except PyError AStepOut × AtariState :=
  if action ≤ 3 then
    let d := a_dir action
    let s1 := { s with
      agent_x := clipA ((s.agent_x : ℤ) + d.1) s.size
      agent_y := clipA ((s.agent_y : ℤ) + d.2) s.size }
    (Except.ok ⟨a_get_obs s1, 0, false, false,
      (s1.num_seedlings : ℤ) - s1.seedlings.length⟩, s1)
  else if s.seedlings.any (fun sd => sd.x == s.agent_x && sd.y == s.agent_y) then
    (Except.ok ⟨a_get_obs s, 0, false, false,
      (s.num_seedlings : ℤ) - s.seedlings.length⟩, s)
  else
    let s1 := { s with
      seedlings := s.seedlings ++ [⟨action - 4, s.agent_x, s.agent_y⟩] }
    if w.file_write_ok = false then
      (Except.error PyError.osError, s1)
    else if w.sim_success = false then
      (Except.error PyError.unboundLocalError, s1)
    else
      match w.sim_output with
      | none => (Except.error PyError.unboundLocalError, s1)
      | some rows =>
        let current_carbon := output_carbon rows
        let reward := current_carbon - s.previous_carbon
        let s2 := { s1 with previous_carbon := current_carbon }
        (Except.ok ⟨a_get_obs s2, reward,
          decide (s2.num_seedlings ≤ s2.seedlings.length), false,
          (s2.num_seedlings : ℤ) - s2.seedlings.length⟩, s2)

/-- A 100-cell continuous environment with an all-plantable mask, two
species plus one, an empty registry and zeroed counters; the base state
for the concrete instantiations below. -/
def baseEnv : EnvState where
  grid_size := 100
  total_seedlings := 100
  species_count := 3
  keepout := fun _ _ => true
  seedlings_planted := []
  previous_carbon := 0
  num_failed_plantings := 0

/-- `baseEnv` with one seedling already planted at (5, 5). -/
def occEnv : EnvState := { baseEnv with seedlings_planted := [⟨5, 5, 0⟩] }

/-- `baseEnv` with an all-keepout mask: every planting is invalid. -/
def maskedEnv : EnvState := { baseEnv with keepout := fun _ _ => false }

/-- `baseEnv` with two seedlings 0.1 grid units apart: the spacing rule
can never again be satisfied. -/
def lockedEnv : EnvState :=
  { baseEnv with seedlings_planted := [⟨5, 5, 0⟩, ⟨51 / 10, 5, 0⟩] }

/-- `baseEnv` with two seedlings whose distinct continuous positions
clamp to the same grid cell (5, 5), with different species. -/
def collideEnv : EnvState :=
  { baseEnv with seedlings_planted := [⟨5, 5, 0⟩, ⟨26 / 5, 5, 1⟩] }

/-- An action decoding to cell (5, 5) of a 100-cell grid. -/
def actAt5 : ℚ × ℚ × ℚ := (-9 / 10, -9 / 10, 0)

/-- An action decoding to continuous position (5.1, 5) of a 100-cell
grid. -/
def actAt51 : ℚ × ℚ × ℚ := (-449 / 500, -9 / 10, 0)

/-- A world in which every external effect succeeds; the simulator
reports one tree row in year 10 whose four masses total 100 kg. -/
def richWorld : World :=
  ⟨true, true, some [⟨10, 40, 30, 20, 10⟩]⟩

/-- A grid-walker state before any planting, with the agent at the
origin. -/
def aState0 : AtariState := ⟨10, 10, [], 0, 0, 0⟩

/-- The exception escaping a step outcome, if any. -/
def raisedOf (r : Except PyError StepOut × EnvState) : Option PyError :=
  match r.1 with
  | Except.ok _ => none
  | Except.error err => some err

/-- The exception escaping a grid-walker step outcome, if any. -/
def a_raisedOf (r : Except PyError AStepOut × AtariState) : Option PyError :=
  match r.1 with
  | Except.ok _ => none
  | Except.error err => some err

lemma spacing_decide_true {s : List Seedling}
    (h : s.length < 2 ∨ ∀ p ∈ seedPairs s, (1 / 4 : ℚ) < seedDistSq p.1 p.2) :
    decide (ENNReal.ofReal 0.5 < get_smallest_seedling_distance s) = true :=
  decide_eq_true ((gssd_gt_iff s).mpr h)

lemma spacing_decide_false {s : List Seedling}
    (h : ¬(s.length < 2 ∨ ∀ p ∈ seedPairs s, (1 / 4 : ℚ) < seedDistSq p.1 p.2)) :
    decide (ENNReal.ofReal 0.5 < get_smallest_seedling_distance s) = false :=
  decide_eq_false (fun hc => h ((gssd_gt_iff s).mp hc))

/-- Characterization of the invalid-planting branch of `step`. -/
lemma step_invalid_spec (e : EnvState) (a : ℚ × ℚ × ℚ) (w : World)
    (h : valid_planting e a = false) :
    step e a w =
      (Except.ok ⟨get_observation e, -10, false,
        decide (10 < e.num_failed_plantings + 1),
        ⟨e.seedlings_planted.length, valid_planting e a, (x_cont e a, y_cont e a),
          species_idx e a, none, none⟩⟩,
       { e with num_failed_plantings := e.num_failed_plantings + 1 }) := by
  simp only [step]
  rw [if_pos h]

/-- Characterization of the branch of `step` in which the planting is
committed and then the seedling-file write raises. -/
lemma step_oserror_spec (e : EnvState) (a : ℚ × ℚ × ℚ) (w : World)
    (hv : valid_planting e a = true) (hf : w.file_write_ok = false) :
    step e a w =
      (Except.error PyError.osError,
       { e with seedlings_planted :=
          e.seedlings_planted ++ [⟨x_cont e a, y_cont e a, species_idx e a⟩] }) := by
  simp only [step]
  rw [if_neg (by simp [hv]), if_pos hf]

/-- Characterization of the branch of `step` in which the planting is
committed and the simulator run then fails. -/
lemma step_simfail_spec (e : EnvState) (a : ℚ × ℚ × ℚ) (w : World)
    (hv : valid_planting e a = true) (hf : w.file_write_ok = true)
    (hs : w.sim_success = false) :
    step e a w =
      (Except.ok ⟨get_observation { e with seedlings_planted :=
          e.seedlings_planted ++ [⟨x_cont e a, y_cont e a, species_idx e a⟩] },
        -10, true, true,
        ⟨e.seedlings_planted.length, valid_planting e a, (x_cont e a, y_cont e a),
          species_idx e a, none, none⟩⟩,
       { e with seedlings_planted :=
          e.seedlings_planted ++ [⟨x_cont e a, y_cont e a, species_idx e a⟩] }) := by
  simp only [step]
  rw [if_neg (by simp [hv]),
    if_neg (by simp [hf]), if_pos hs]

/-- Characterization of the branch of `step` in which the planting is
committed, the simulator succeeds, but its output cannot be read. -/
lemma step_nooutput_spec (e : EnvState) (a : ℚ × ℚ × ℚ) (w : World)
    (hv : valid_planting e a = true) (hf : w.file_write_ok = true)
    (hs : w.sim_success = true) (ho : w.sim_output = none) :
    step e a w =
      (Except.ok ⟨get_observation { e with seedlings_planted :=
          e.seedlings_planted ++ [⟨x_cont e a, y_cont e a, species_idx e a⟩] },
        -5, true, true,
        ⟨e.seedlings_planted.length, valid_planting e a, (x_cont e a, y_cont e a),
          species_idx e a, none, none⟩⟩,
       { e with seedlings_planted :=
          e.seedlings_planted ++ [⟨x_cont e a, y_cont e a, species_idx e a⟩] }) := by
  simp only [step]
  rw [if_neg (by simp [hv]),
    if_neg (by simp [hf]),
    if_neg (by simp [hs]), ho]

lemma vp_baseEnv : valid_planting baseEnv (0, 0, 0) = true := by
  rw [valid_planting, spacing_decide_true (Or.inl (by decide))]
  rfl

lemma vp_occEnv : valid_planting occEnv actAt5 = true := by
  rw [valid_planting, spacing_decide_true (Or.inl (by decide))]
  rfl

lemma vp_maskedEnv (a : ℚ × ℚ × ℚ) : valid_planting maskedEnv a = false := by
  rw [valid_planting]
  rfl

lemma lockedPairs :
    seedPairs lockedEnv.seedlings_planted = [(⟨5, 5, 0⟩, ⟨51 / 10, 5, 0⟩)] := rfl

lemma vp_lockedEnv (a : ℚ × ℚ × ℚ) : valid_planting lockedEnv a = false := by
  have h : ¬(lockedEnv.seedlings_planted.length < 2 ∨
      ∀ p ∈ seedPairs lockedEnv.seedlings_planted,
        (1 / 4 : ℚ) < seedDistSq p.1 p.2) := by
    push_neg
    refine ⟨by decide, (⟨5, 5, 0⟩, ⟨51 / 10, 5, 0⟩), ?_, ?_⟩
    · rw [lockedPairs]
      exact List.mem_singleton_self _
    · norm_num [seedDistSq]
  rw [valid_planting, spacing_decide_false h, Bool.and_false]

lemma clampGrid_base_five : clampGrid baseEnv 5 = 5 := by
  norm_num [clampGrid, pyInt, baseEnv]
  rfl

lemma grid_xy_occ : grid_x occEnv actAt5 = 5 ∧ grid_y occEnv actAt5 = 5 := by
  constructor
  · norm_num [grid_x, clampGrid, pyInt, x_cont, actAt5, occEnv, baseEnv]
    rfl
  · norm_num [grid_y, clampGrid, pyInt, y_cont, actAt5, occEnv, baseEnv]
    rfl

lemma output_carbon_rich : output_carbon [⟨10, 40, 30, 20, 10⟩] = 50 := by
  norm_num [output_carbon, get_total_carbon, List.filter, List.max?]

/-- Characterization of the successful branch of `step`: committed
planting, successful simulator run, readable output. -/
lemma step_success_spec (e : EnvState) (a : ℚ × ℚ × ℚ) (w : World)
    (rows : List TreeRow) (hv : valid_planting e a = true)
    (hf : w.file_write_ok = true) (hs : w.sim_success = true)
    (ho : w.sim_output = some rows) :
    step e a w =
      (Except.ok ⟨get_observation { e with
          seedlings_planted :=
            e.seedlings_planted ++ [⟨x_cont e a, y_cont e a, species_idx e a⟩]
          previous_carbon := output_carbon rows },
        output_carbon rows - e.previous_carbon,
        decide (e.total_seedlings ≤ (e.seedlings_planted ++
          [(⟨x_cont e a, y_cont e a, species_idx e a⟩ : Seedling)]).length), false,
        ⟨e.seedlings_planted.length, valid_planting e a, (x_cont e a, y_cont e a),
          species_idx e a, some (output_carbon rows),
          some (output_carbon rows - e.previous_carbon)⟩⟩,
       { e with
          seedlings_planted :=
            e.seedlings_planted ++ [⟨x_cont e a, y_cont e a, species_idx e a⟩]
          previous_carbon := output_carbon rows }) := by
  simp only [step]
  rw [if_neg (by simp [hv]),
    if_neg (by simp [hf]),
    if_neg (by simp [hs]), ho]

lemma mass_sum_split (l : List TreeRow) :
    (l.map (fun r => r.branchMass)).sum + (l.map (fun r => r.stemMass)).sum
      + (l.map (fun r => r.coarseRootMass)).sum + (l.map (fun r => r.fineRootMass)).sum
      = (l.map (fun r => r.stemMass + r.branchMass + r.coarseRootMass + r.fineRootMass)).sum := by
  induction l with
  | nil => simp
  | cons x xs ih =>
    simp only [List.map_cons, List.sum_cons]
    linarith [ih]

lemma foldr_min_mem {l : List ℝ≥0∞} (h : l ≠ []) : l.foldr min ⊤ ∈ l := by
  induction l with
  | nil => exact absurd rfl h
  | cons x xs ih =>
    by_cases hx : xs = []
    · subst hx
      rw [show List.foldr min ⊤ [x] = min x ⊤ from rfl, min_eq_left le_top]
      exact List.mem_singleton_self x
    · rcases le_total x (xs.foldr min ⊤) with hle | hle
      · rw [List.foldr_cons, min_eq_left hle]
        exact List.mem_cons_self x xs
      · rw [List.foldr_cons, min_eq_right hle]
        exact List.mem_cons_of_mem x (ih hx)

lemma foldr_min_le {l : List ℝ≥0∞} {b : ℝ≥0∞} (h : b ∈ l) : l.foldr min ⊤ ≤ b := by
  induction l with
  | nil => cases h
  | cons x xs ih =>
    rcases List.mem_cons.mp h with rfl | hmem
    · exact min_le_left _ _
    · exact le_trans (min_le_right _ _) (ih hmem)

lemma seedPairs_ne_nil {s : List Seedling} (h : 2 ≤ s.length) : seedPairs s ≠ [] := by
  rcases s with _ | ⟨a, _ | ⟨b, t⟩⟩
  · simp at h
  · simp at h
  · simp [seedPairs]

lemma clampGrid_le (e : EnvState) (v : ℚ) (hg : 1 ≤ e.grid_size) :
    clampGrid e v ≤ e.grid_size - 1 := by
  have hg1 : (1 : ℚ) ≤ (e.grid_size : ℚ) := by exact_mod_cast hg
  have hnn : (0 : ℚ) ≤ min (max 0 v) ((e.grid_size : ℚ) - 1) := by
    refine le_min (le_max_left 0 v) ?_
    linarith
  rw [clampGrid, pyInt, if_pos hnn]
  have hfl : ⌊min (max 0 v) ((e.grid_size : ℚ) - 1)⌋ ≤ (e.grid_size : ℤ) - 1 := by
    calc ⌊min (max 0 v) ((e.grid_size : ℚ) - 1)⌋ ≤ ⌊(e.grid_size : ℚ) - 1⌋ :=
          Int.floor_mono (min_le_right _ _)
      _ = (e.grid_size : ℤ) - 1 := by
          rw [show ((e.grid_size : ℚ) - 1) = (((e.grid_size : ℤ) - 1 : ℤ) : ℚ) by push_cast; ring,
            Int.floor_intCast]
  omega

lemma species_idx_le (e : EnvState) (a : ℚ × ℚ × ℚ) (hs : 1 ≤ e.species_count) :
    species_idx e a ≤ e.species_count - 1 := by
  rw [species_idx]
  have h0 : (1 : ℤ) ≤ (e.species_count : ℤ) := by exact_mod_cast hs
  have h2 : max 0 (min (pyInt (((a.2.2 + 1) / 2) * ((e.species_count : ℚ) - 1)))
      ((e.species_count : ℤ) - 1)) ≤ (e.species_count : ℤ) - 1 :=
    max_le (by omega) (min_le_right _ _)
  calc (max 0 (min (pyInt (((a.2.2 + 1) / 2) * ((e.species_count : ℚ) - 1)))
      ((e.species_count : ℤ) - 1))).toNat
      ≤ ((e.species_count : ℤ) - 1).toNat := Int.toNat_le_toNat h2
    _ = e.species_count - 1 := by omega

lemma x_cont_bounds (e : EnvState) (a : ℚ × ℚ × ℚ) (h : -1 ≤ a.1 ∧ a.1 ≤ 1) :
    0 ≤ x_cont e a ∧ x_cont e a ≤ e.grid_size := by
  obtain ⟨hl, hr⟩ := h
  have hg : (0 : ℚ) ≤ (e.grid_size : ℚ) := by positivity
  rw [x_cont]
  constructor
  · apply mul_nonneg _ hg
    linarith
  · have h1 : (a.1 + 1) / 2 ≤ 1 := by linarith
    simpa using mul_le_mul_of_nonneg_right h1 hg

lemma y_cont_bounds (e : EnvState) (a : ℚ × ℚ × ℚ) (h : -1 ≤ a.2.1 ∧ a.2.1 ≤ 1) :
    0 ≤ y_cont e a ∧ y_cont e a ≤ e.grid_size := by
  obtain ⟨hl, hr⟩ := h
  have hg : (0 : ℚ) ≤ (e.grid_size : ℚ) := by positivity
  rw [y_cont]
  constructor
  · apply mul_nonneg _ hg
    linarith
  · have h1 : (a.2.1 + 1) / 2 ≤ 1 := by linarith
    simpa using mul_le_mul_of_nonneg_right h1 hg

/-- When the minimum pairwise distance is at most the threshold, the
spacing conjunct of `valid_planting` is false, whatever the action. -/
lemma stuck_of_le (e : EnvState)
    (h : get_smallest_seedling_distance e.seedlings_planted ≤ ENNReal.ofReal 0.5)
    (a : ℚ × ℚ × ℚ) : valid_planting e a = false := by
  rw [valid_planting, decide_eq_false (not_lt.mpr h), Bool.and_false]

lemma step_registry_invalid (e : EnvState) (a : ℚ × ℚ × ℚ) (w : World)
    (h : valid_planting e a = false) :
    (step e a w).2.seedlings_planted = e.seedlings_planted := by
  rw [step_invalid_spec e a w h]

/-- Once the minimum pairwise distance is at most the threshold, no
sequence of further `step` calls ever changes the registry. -/
lemma stuck_forever (l : List ((ℚ × ℚ × ℚ) × World)) :
    ∀ e : EnvState,
      get_smallest_seedling_distance e.seedlings_planted ≤ ENNReal.ofReal 0.5 →
      (stepsFold e l).seedlings_planted = e.seedlings_planted := by
  induction l with
  | nil => exact fun e _ => rfl
  | cons aw t ih =>
    intro e h
    have hreg := step_registry_invalid e aw.1 aw.2 (stuck_of_le e h aw.1)
    have h2 : get_smallest_seedling_distance
        (step e aw.1 aw.2).2.seedlings_planted ≤ ENNReal.ofReal 0.5 := by
      rw [hreg]
      exact h
    calc (stepsFold e (aw :: t)).seedlings_planted
        = (stepsFold (step e aw.1 aw.2).2 t).seedlings_planted := rfl
      _ = (step e aw.1 aw.2).2.seedlings_planted := ih _ h2
      _ = e.seedlings_planted := hreg

/-- A cell of the observation holds the value of the last seedling (in
planting order) whose clamped position is that cell, or the base
mask-derived value when no seedling maps there. -/
lemma get_observation_spec (e : EnvState) (l : List Seedling)
    (base : ℕ → ℕ → ℕ) (gy gx : ℕ) :
    (l.foldl (fun obs sd => fun gy2 gx2 =>
        if gy2 = clampGrid e sd.y ∧ gx2 = clampGrid e sd.x then sd.species_idx + 2
        else obs gy2 gx2) base) gy gx =
      (match l.reverse.find?
          (fun sd => decide (gy = clampGrid e sd.y ∧ gx = clampGrid e sd.x)) with
       | some sd => sd.species_idx + 2
       | none => base gy gx) := by
  induction l generalizing base with
  | nil => rfl
  | cons x xs ih =>
    rw [List.foldl_cons, ih, List.reverse_cons, List.find?_append]
    cases hfind : xs.reverse.find?
        (fun sd => decide (gy = clampGrid e sd.y ∧ gx = clampGrid e sd.x)) with
    | some sd => simp [hfind]
    | none =>
      by_cases hc : gy = clampGrid e x.y ∧ gx = clampGrid e x.x
      · simp [hfind, List.find?, hc]
      · simp [hfind, List.find?, hc]

/-- The all-plantable mask used in the concrete reachability trace. -/
def c9_mask : ℕ → ℕ → Bool := fun _ _ => true

/-- Two plantings 0.1 grid units apart, each with a benign simulator
outcome. -/
def c9_acts : List ((ℚ × ℚ × ℚ) × World) :=
  [(actAt5, richWorld), (actAt51, richWorld)]

/-- The state reached after the first planting of the trace. -/
def c9_mid : EnvState :=
  { baseEnv with
    seedlings_planted := [⟨5, 5, 1⟩]
    previous_carbon := 50 }

lemma c9_step1 : (step (reset baseEnv c9_mask) actAt5 richWorld).2 = c9_mid := by
  have hvp : valid_planting (reset baseEnv c9_mask) actAt5 = true := by
    rw [valid_planting, spacing_decide_true (Or.inl (by decide))]
    rfl
  rw [step_success_spec (reset baseEnv c9_mask) actAt5 richWorld
    [⟨10, 40, 30, 20, 10⟩] hvp rfl rfl rfl]
  have hx : x_cont (reset baseEnv c9_mask) actAt5 = 5 := by
    norm_num [x_cont, actAt5, reset, baseEnv]
  have hy : y_cont (reset baseEnv c9_mask) actAt5 = 5 := by
    norm_num [y_cont, actAt5, reset, baseEnv]
  have hsp : species_idx (reset baseEnv c9_mask) actAt5 = 1 := by
    norm_num [species_idx, pyInt, reset, baseEnv, actAt5]
  rw [hx, hy, hsp, output_carbon_rich]
  rfl

lemma c9_trace_seedlings :
    (stepsFold (reset baseEnv c9_mask) c9_acts).seedlings_planted =
      [⟨5, 5, 1⟩, ⟨51 / 10, 5, 1⟩] := by
  have h1 : stepsFold (reset baseEnv c9_mask) c9_acts =
      (step (step (reset baseEnv c9_mask) actAt5 richWorld).2 actAt51 richWorld).2 := rfl
  rw [h1, c9_step1]
  have hvp : valid_planting c9_mid actAt51 = true := by
    rw [valid_planting, spacing_decide_true (Or.inl (by decide))]
    rfl
  rw [step_success_spec c9_mid actAt51 richWorld [⟨10, 40, 30, 20, 10⟩] hvp rfl rfl rfl]
  have hx : x_cont c9_mid actAt51 = 51 / 10 := by
    norm_num [x_cont, actAt51, c9_mid, baseEnv]
  have hy : y_cont c9_mid actAt51 = 5 := by
    norm_num [y_cont, actAt51, c9_mid, baseEnv]
  have hsp : species_idx c9_mid actAt51 = 1 := by
    norm_num [species_idx, pyInt, c9_mid, baseEnv, actAt51]
  rw [hx, hy, hsp]
  rfl

/-- Claim C1 counterexample: with a single seedling already at (5, 5),
an all-plantable mask and an action decoding to the same cell (5, 5),
the source judges the planting valid (the spacing test is vacuous for
one seedling and no occupancy test exists), while the validity predicate
the claim states, which also requires the target cell to be unoccupied,
is false. -/
theorem C1_counterexample :
    valid_planting occEnv actAt5 = true ∧ spec_valid_planting occEnv actAt5 = false := by
  refine ⟨vp_occEnv, ?_⟩
  have h5 : clampGrid occEnv 5 = 5 := clampGrid_base_five
  have hlist : occEnv.seedlings_planted = [⟨5, 5, 0⟩] := rfl
  rw [spec_valid_planting, grid_xy_occ.1, grid_xy_occ.2, hlist]
  simp [h5]

/-- Claim C1 (amended): the planting is judged valid iff the keepout
mask marks the target cell plantable AND the minimum-spacing rule holds;
the source checks no occupancy condition. The registry gains exactly the
decoded seedling when the planting is valid and is unchanged otherwise,
on every path of `step`, including those on which an exception
escapes. -/
theorem C1_validity_and_registry (e : EnvState) (a : ℚ × ℚ × ℚ) (w : World) :
    (valid_planting e a = true ↔ (e.keepout (grid_y e a) (grid_x e a) = true ∧
      ENNReal.ofReal 0.5 < get_smallest_seedling_distance e.seedlings_planted)) ∧
    (step e a w).2.seedlings_planted =
      (if valid_planting e a = true then
        e.seedlings_planted ++ [⟨x_cont e a, y_cont e a, species_idx e a⟩]
      else e.seedlings_planted) := by
  constructor
  · rw [valid_planting, Bool.and_eq_true, decide_eq_true_eq]
  · by_cases h : valid_planting e a = true
    · rw [if_pos h]
      rcases w with ⟨fw, ss, so⟩
      cases fw
      · rw [step_oserror_spec e a _ h rfl]
      · cases ss
        · rw [step_simfail_spec e a _ h rfl rfl]
        · cases so with
          | none => rw [step_nooutput_spec e a _ h rfl rfl rfl]
          | some rows => rw [step_success_spec e a _ rows h rfl rfl rfl]
    · have h2 : valid_planting e a = false := by
        cases hval : valid_planting e a
        · rfl
        · exact absurd hval h
      rw [if_neg h, step_registry_invalid e a w h2]

/-- Claim C2 is violated by the code: in the grid-walker environment,
when a planting step's simulator run fails or its output is unreadable,
the return statement references the Python local `info`, never assigned
on the planting path, so `UnboundLocalError` escapes `step` instead of a
5-tuple being returned; in the continuous environment an unguarded
failing file write in the seedling-file writer escapes as `OSError`. -/
theorem C2_step_exception_escapes :
    a_raisedOf (a_step aState0 4 ⟨true, false, none⟩) = some PyError.unboundLocalError ∧
    a_raisedOf (a_step aState0 4 ⟨true, true, none⟩) = some PyError.unboundLocalError ∧
    raisedOf (step baseEnv (0, 0, 0) ⟨false, true, none⟩) = some PyError.osError := by
  refine ⟨rfl, rfl, ?_⟩
  rw [step_oserror_spec baseEnv (0, 0, 0) ⟨false, true, none⟩ vp_baseEnv rfl, raisedOf]

/-- Claim C3 counterexample: the simulation-failure penalty (-10.0)
equals the invalid-placement penalty (-10.0) rather than exceeding it,
and an unreadable simulator output yields -5.0, a smaller penalty. -/
theorem C3_counterexample :
    rewardOf (step baseEnv (0, 0, 0) ⟨true, false, none⟩) = some (-10) ∧
    rewardOf (step maskedEnv (0, 0, 0) ⟨true, false, none⟩) = some (-10) ∧
    rewardOf (step baseEnv (0, 0, 0) ⟨true, true, none⟩) = some (-5) := by
  refine ⟨?_, ?_, ?_⟩
  · rw [step_simfail_spec baseEnv (0, 0, 0) _ vp_baseEnv rfl rfl, rewardOf]
  · rw [step_invalid_spec maskedEnv (0, 0, 0) _ (vp_maskedEnv _), rewardOf]
  · rw [step_nooutput_spec baseEnv (0, 0, 0) _ vp_baseEnv rfl rfl rfl, rewardOf]

/-- Claim C3 (amended): when a step commits a seedling and the simulator
run then fails, `step` returns the fixed penalty -10.0 — equal to, not
larger than, the invalid-placement penalty — with `terminated = true`,
and the just-committed seedling remains in the registry; when the run
succeeds but yields no readable output the penalty is -5.0, likewise
with `terminated = true` and the seedling retained. -/
theorem C3_sim_failure_outcome (e : EnvState) (a : ℚ × ℚ × ℚ) (w : World)
    (hv : valid_planting e a = true) (hf : w.file_write_ok = true) :
    (w.sim_success = false →
      rewardOf (step e a w) = some (-10) ∧ terminatedOf (step e a w) = some true ∧
      (step e a w).2.seedlings_planted =
        e.seedlings_planted ++ [⟨x_cont e a, y_cont e a, species_idx e a⟩]) ∧
    (w.sim_success = true → w.sim_output = none →
      rewardOf (step e a w) = some (-5) ∧ terminatedOf (step e a w) = some true ∧
      (step e a w).2.seedlings_planted =
        e.seedlings_planted ++ [⟨x_cont e a, y_cont e a, species_idx e a⟩]) := by
  constructor
  · intro hs
    rw [step_simfail_spec e a w hv hf hs]
    exact ⟨rfl, rfl, rfl⟩
  · intro hs ho
    rw [step_nooutput_spec e a w hv hf hs ho]
    exact ⟨rfl, rfl, rfl⟩

/-- Witness for claim C3 at a concrete input: valid planting on an empty
registry, simulator failure; reward -10, `terminated = true`, seedling
retained. -/
theorem C3_witness :
    valid_planting baseEnv (0, 0, 0) = true ∧
    rewardOf (step baseEnv (0, 0, 0) ⟨true, false, none⟩) = some (-10) ∧
    terminatedOf (step baseEnv (0, 0, 0) ⟨true, false, none⟩) = some true ∧
    (step baseEnv (0, 0, 0) ⟨true, false, none⟩).2.seedlings_planted =
      [⟨x_cont baseEnv (0, 0, 0), y_cont baseEnv (0, 0, 0), species_idx baseEnv (0, 0, 0)⟩] := by
  have h := (C3_sim_failure_outcome baseEnv (0, 0, 0) ⟨true, false, none⟩ vp_baseEnv rfl).1 rfl
  exact ⟨vp_baseEnv, h.1, h.2.1, h.2.2⟩

/-- Claim C4 counterexample: with 3 species and third action component
3/4, the mapped value is 7/8 of the span, namely 7/4; the source
truncates it to species index 1 while rounding to the nearest integer,
as the claim states, would give 2. -/
theorem C4_counterexample :
    species_idx baseEnv (0, 0, 3 / 4) = 1 ∧ spec_species_idx baseEnv (0, 0, 3 / 4) = 2 := by
  constructor
  · norm_num [species_idx, pyInt, baseEnv]
  · norm_num [spec_species_idx, baseEnv]
    rw [show round ((7 : ℚ) / 4) = 2 from by norm_num [round_eq]]
    decide

/-- Claim C4 (amended): for every action vector in `[-1,1]^3`, with at
least one species and a positive grid size, decoding yields clamped grid
indices in `[0, grid_size - 1]` and a species index in
`[0, species_count - 1]`, the latter obtained by truncating (not
rounding to nearest) the mapped third component before clamping; the
unclamped continuous coordinates lie in `[0, grid_size]`, and decoding
is a total function, so no exception is raised. -/
theorem C4_decode_ranges (e : EnvState) (a : ℚ × ℚ × ℚ)
    (h1 : -1 ≤ a.1 ∧ a.1 ≤ 1) (h2 : -1 ≤ a.2.1 ∧ a.2.1 ≤ 1)
    (h3 : -1 ≤ a.2.2 ∧ a.2.2 ≤ 1)
    (hg : 1 ≤ e.grid_size) (hs : 1 ≤ e.species_count) :
    grid_x e a ≤ e.grid_size - 1 ∧ grid_y e a ≤ e.grid_size - 1 ∧
    species_idx e a ≤ e.species_count - 1 ∧
    0 ≤ x_cont e a ∧ x_cont e a ≤ e.grid_size ∧
    0 ≤ y_cont e a ∧ y_cont e a ≤ e.grid_size :=
  ⟨clampGrid_le e _ hg, clampGrid_le e _ hg, species_idx_le e a hs,
   (x_cont_bounds e a h1).1, (x_cont_bounds e a h1).2,
   (y_cont_bounds e a h2).1, (y_cont_bounds e a h2).2⟩

/-- Witness for claim C4 at the concrete action (0, 0, 0) on a
100-cell grid with 3 species. -/
theorem C4_witness :
    ((-1 : ℚ) ≤ 0 ∧ (0 : ℚ) ≤ 1) ∧ 1 ≤ baseEnv.grid_size ∧ 1 ≤ baseEnv.species_count ∧
    (grid_x baseEnv (0, 0, 0) ≤ baseEnv.grid_size - 1 ∧
     grid_y baseEnv (0, 0, 0) ≤ baseEnv.grid_size - 1 ∧
     species_idx baseEnv (0, 0, 0) ≤ baseEnv.species_count - 1 ∧
     0 ≤ x_cont baseEnv (0, 0, 0) ∧ x_cont baseEnv (0, 0, 0) ≤ baseEnv.grid_size ∧
     0 ≤ y_cont baseEnv (0, 0, 0) ∧ y_cont baseEnv (0, 0, 0) ≤ baseEnv.grid_size) :=
  ⟨⟨by norm_num, by norm_num⟩, by decide, by decide,
   C4_decode_ranges baseEnv (0, 0, 0) (by norm_num) (by norm_num) (by norm_num)
     (by decide) (by decide)⟩

/-- Claim C5: on a valid planting with simulator output available,
`step` computes the carbon at the final year of the output, rewards
exactly the carbon improvement over `previous_carbon`, updates
`previous_carbon` to the new value, and terminates exactly when the
registry (including the new seedling) has reached the seedling
target. -/
theorem C5_success_reward (e : EnvState) (a : ℚ × ℚ × ℚ) (w : World) (rows : List TreeRow)
    (hv : valid_planting e a = true) (hf : w.file_write_ok = true)
    (hs : w.sim_success = true) (ho : w.sim_output = some rows) :
    rewardOf (step e a w) = some (output_carbon rows - e.previous_carbon) ∧
    (step e a w).2.previous_carbon = output_carbon rows ∧
    terminatedOf (step e a w) =
      some (decide (e.total_seedlings ≤ e.seedlings_planted.length + 1)) ∧
    truncatedOf (step e a w) = some false := by
  rw [step_success_spec e a w rows hv hf hs ho]
  refine ⟨rfl, rfl, ?_, rfl⟩
  show some (decide _) = some (decide _)
  congr 1
  rw [decide_eq_decide, List.length_append]
  exact Iff.rfl

/-- Witness for claim C5: the spec's end-to-end scenario B — a valid
planting, simulator rows totaling 100 kg of mass at the final year,
`previous_carbon = 0` — gives reward 50 and `previous_carbon = 50`. -/
theorem C5_witness :
    valid_planting baseEnv (0, 0, 0) = true ∧
    rewardOf (step baseEnv (0, 0, 0) richWorld) = some 50 ∧
    (step baseEnv (0, 0, 0) richWorld).2.previous_carbon = 50 ∧
    terminatedOf (step baseEnv (0, 0, 0) richWorld) = some false := by
  have h := C5_success_reward baseEnv (0, 0, 0) richWorld [⟨10, 40, 30, 20, 10⟩]
    vp_baseEnv rfl rfl rfl
  refine ⟨vp_baseEnv, ?_, ?_, ?_⟩
  · rw [h.1, output_carbon_rich]
    norm_num [baseEnv]
  · rw [h.2.1, output_carbon_rich]
  · rw [h.2.2.1]
    rfl

/-- Claim C6: an invalid planting — in particular any planting whose
target cell the mask marks non-plantable — increments the failure
counter, yields reward -10 with `terminated = false`, leaves the
registry and `previous_carbon` unchanged, and truncates exactly when the
post-increment failure count exceeds the budget of 10. -/
theorem C6_invalid_outcome (e : EnvState) (a : ℚ × ℚ × ℚ) (w : World) :
    (e.keepout (grid_y e a) (grid_x e a) = false → valid_planting e a = false) ∧
    (valid_planting e a = false →
      rewardOf (step e a w) = some (-10) ∧
      terminatedOf (step e a w) = some false ∧
      truncatedOf (step e a w) = some (decide (10 < e.num_failed_plantings + 1)) ∧
      (step e a w).2.seedlings_planted = e.seedlings_planted ∧
      (step e a w).2.previous_carbon = e.previous_carbon ∧
      (step e a w).2.num_failed_plantings = e.num_failed_plantings + 1) := by
  constructor
  · intro hk
    rw [valid_planting, hk, Bool.false_and]
  · intro h
    rw [step_invalid_spec e a w h]
    exact ⟨rfl, rfl, rfl, rfl, rfl, rfl⟩

/-- Witness for claim C6 at a concrete input: a fully masked grid makes
the planting invalid; reward -10, no termination or truncation, registry
untouched, failure count 1. -/
theorem C6_witness :
    valid_planting maskedEnv (0, 0, 0) = false ∧
    rewardOf (step maskedEnv (0, 0, 0) richWorld) = some (-10) ∧
    terminatedOf (step maskedEnv (0, 0, 0) richWorld) = some false ∧
    truncatedOf (step maskedEnv (0, 0, 0) richWorld) = some false ∧
    (step maskedEnv (0, 0, 0) richWorld).2.seedlings_planted = [] ∧
    (step maskedEnv (0, 0, 0) richWorld).2.num_failed_plantings = 1 := by
  have h := (C6_invalid_outcome maskedEnv (0, 0, 0) richWorld).2 (vp_maskedEnv _)
  refine ⟨vp_maskedEnv _, h.1, h.2.1, ?_, h.2.2.2.1, h.2.2.2.2.2⟩
  rw [h.2.2.1]
  rfl

/-- Claim C7: `get_total_carbon` filters the rows to the requested year,
sums the four mass fields over all matching rows, multiplies by the
fixed carbon fraction 0.5, and returns exactly 0 on an empty filter
result; it is a total function, so it never raises. -/
theorem C7_total_carbon (data : List TreeRow) (year : ℤ) :
    get_total_carbon data year =
      ((data.filter (fun r => r.year == year)).map
        (fun r => r.stemMass + r.branchMass + r.coarseRootMass + r.fineRootMass)).sum * 0.5 ∧
    (data.filter (fun r => r.year == year) = [] → get_total_carbon data year = 0) := by
  constructor
  · simp only [get_total_carbon]
    rw [mass_sum_split]
  · intro h
    simp only [get_total_carbon, h]
    norm_num

/-- Witness for claim C7: a year matching no row gives exactly 0. -/
theorem C7_witness :
    ([⟨10, 40, 30, 20, 10⟩] : List TreeRow).filter (fun r => r.year == (3 : ℤ)) = [] ∧
    get_total_carbon [⟨10, 40, 30, 20, 10⟩] 3 = 0 := by
  have hfil : ([⟨10, 40, 30, 20, 10⟩] : List TreeRow).filter (fun r => r.year == (3 : ℤ)) = [] := rfl
  exact ⟨hfil, (C7_total_carbon [⟨10, 40, 30, 20, 10⟩] 3).2 hfil⟩

/-- Claim C8: `get_smallest_seedling_distance` returns infinity (`⊤`,
the model of `float("inf")`) for fewer than two seedlings; for two or
more it is the minimum over all unordered pairs — attained at some pair
and a lower bound for every pair — and is finite (values of type
`ℝ≥0∞` are nonnegative by construction). -/
theorem C8_min_distance (s : List Seedling) :
    (s.length < 2 → get_smallest_seedling_distance s = ⊤) ∧
    (2 ≤ s.length →
      (∃ p ∈ seedPairs s, get_smallest_seedling_distance s = seedDist p.1 p.2) ∧
      (∀ p ∈ seedPairs s, get_smallest_seedling_distance s ≤ seedDist p.1 p.2) ∧
      get_smallest_seedling_distance s ≠ ⊤) := by
  constructor
  · intro h
    rw [get_smallest_seedling_distance, if_pos h]
  · intro h
    have hnl : ((seedPairs s).map (fun p => seedDist p.1 p.2)) ≠ [] := by
      intro hc
      exact seedPairs_ne_nil h (List.map_eq_nil_iff.mp hc)
    have hne : ¬ s.length < 2 := by omega
    rw [get_smallest_seedling_distance, if_neg hne]
    rcases List.mem_map.mp (foldr_min_mem hnl) with ⟨p, hp, heq⟩
    refine ⟨⟨p, hp, heq.symm⟩, ?_, ?_⟩
    · intro q hq
      exact foldr_min_le (List.mem_map_of_mem _ hq)
    · rw [← heq]
      exact ENNReal.ofReal_ne_top

/-- Witness for claim C8 at a two-seedling registry: the minimum is the
distance of the unique pair, and it is finite. -/
theorem C8_witness :
    get_smallest_seedling_distance [⟨0, 0, 0⟩, ⟨3, 4, 0⟩] = seedDist ⟨0, 0, 0⟩ ⟨3, 4, 0⟩ ∧
    get_smallest_seedling_distance [⟨0, 0, 0⟩, ⟨3, 4, 0⟩] ≠ ⊤ := by
  obtain ⟨⟨p, hp, heq⟩, hlb, hfin⟩ :=
    (C8_min_distance [⟨0, 0, 0⟩, ⟨3, 4, 0⟩]).2 (by decide)
  have hp2 : p = (⟨0, 0, 0⟩, ⟨3, 4, 0⟩) := by
    simpa [seedPairs] using hp
  rw [hp2] at heq
  exact ⟨heq, hfin⟩

/-- Claim C9: once the minimum pairwise distance among planted seedlings
is at most 0.5 — with at least two seedlings it can drop that low — the
spacing test, which inspects only already-committed seedlings and never
the candidate position, fails for every action, so every subsequent step
is judged invalid and the registry never grows again before the next
reset. Such states are reachable: the concrete two-planting trace below
commits a second seedling 0.1 grid units from the first. -/
theorem C9_spacing_deadlock :
    (∀ e : EnvState,
      get_smallest_seedling_distance e.seedlings_planted ≤ ENNReal.ofReal 0.5 →
      (∀ a : ℚ × ℚ × ℚ, valid_planting e a = false) ∧
      (∀ l : List ((ℚ × ℚ × ℚ) × World),
        (stepsFold e l).seedlings_planted = e.seedlings_planted)) ∧
    get_smallest_seedling_distance
      (stepsFold (reset baseEnv c9_mask) c9_acts).seedlings_planted ≤ ENNReal.ofReal 0.5 ∧
    2 ≤ (stepsFold (reset baseEnv c9_mask) c9_acts).seedlings_planted.length := by
  refine ⟨fun e h => ⟨stuck_of_le e h, fun l => stuck_forever l e h⟩, ?_, ?_⟩
  · rw [c9_trace_seedlings]
    apply le_of_not_lt
    rw [gssd_gt_iff]
    push_neg
    refine ⟨by decide, (⟨5, 5, 1⟩, ⟨51 / 10, 5, 1⟩), by simp [seedPairs], ?_⟩
    norm_num [seedDistSq]
  · rw [c9_trace_seedlings]
    decide

/-- Witness for claim C9 at a concrete locked state: two seedlings 0.1
apart make every further planting invalid and freeze the registry. -/
theorem C9_witness :
    valid_planting lockedEnv actAt5 = false ∧
    (stepsFold lockedEnv [(actAt5, richWorld)]).seedlings_planted =
      lockedEnv.seedlings_planted := by
  have hle : get_smallest_seedling_distance lockedEnv.seedlings_planted ≤
      ENNReal.ofReal 0.5 := by
    apply le_of_not_lt
    rw [gssd_gt_iff]
    push_neg
    refine ⟨by decide, (⟨5, 5, 0⟩, ⟨51 / 10, 5, 0⟩), ?_, ?_⟩
    · rw [lockedPairs]
      exact List.mem_singleton_self _
    · norm_num [seedDistSq]
  have h := C9_spacing_deadlock.1 lockedEnv hle
  exact ⟨h.1 actAt5, h.2 [(actAt5, richWorld)]⟩

/-- Claim C10: the observation encoder clamps each seedling's continuous
position into `[0, grid_size - 1]` and, processing seedlings in planting
order, writes `species_idx + 2` at the clamped cell, so a cell shows the
LAST seedling mapped to it (later plantings overwrite earlier ones), and
the mask-derived base value only where no seedling maps. -/
theorem C10_obs_last_writer (e : EnvState) (gy gx : ℕ) (hg : 1 ≤ e.grid_size) :
    (∀ sd ∈ e.seedlings_planted,
      clampGrid e sd.x ≤ e.grid_size - 1 ∧ clampGrid e sd.y ≤ e.grid_size - 1) ∧
    get_observation e gy gx =
      (match last_seedling_at e gy gx with
       | some sd => sd.species_idx + 2
       | none => if e.keepout gy gx then 0 else 1) := by
  refine ⟨fun sd _ => ⟨clampGrid_le e sd.x hg, clampGrid_le e sd.y hg⟩, ?_⟩
  exact get_observation_spec e e.seedlings_planted _ gy gx

/-- Witness for claim C10: two seedlings with distinct continuous
positions clamp to the same cell (5, 5); the observation there shows the
later seedling's species value 3 (species 1), not the earlier value 2,
while both seedlings remain in the registry. -/
theorem C10_witness :
    get_observation collideEnv 5 5 = 3 ∧
    collideEnv.seedlings_planted = [⟨5, 5, 0⟩, ⟨26 / 5, 5, 1⟩] := by
  have h := (C10_obs_last_writer collideEnv 5 5 (by decide)).2
  refine ⟨?_, rfl⟩
  rw [h]
  have h1 : clampGrid collideEnv 5 = 5 := clampGrid_base_five
  have h2 : clampGrid collideEnv (26 / 5) = 5 := by
    norm_num [clampGrid, pyInt, collideEnv, baseEnv]
    rfl
  have hrev : collideEnv.seedlings_planted.reverse = [⟨26 / 5, 5, 1⟩, ⟨5, 5, 0⟩] := rfl
  rw [last_seedling_at, hrev]
  simp [List.find?, h1, h2]

end ILand
